import Mathlib

/-!
Shallow embedding of the Blog-AI backend (a FastAPI application): the
pipeline orchestrator in `backend/app/main.py`, the token / identity layer
in `backend/app/auth.py`, and the authentication routes in
`backend/app/routes/auth.py`.

Modelling conventions:
* Python exceptions are modelled with `Except`; an uncaught exception is an
  `Except.error` value that the caller's embedded `try/except` structure
  either handles or propagates.
* The three MongoDB collections (`users`, `history`, `blogs`) are lists in a
  `Store` value threaded explicitly through every operation that touches the
  database.  A driver failure (`insert_one` raising) is injected through an
  explicit `Option String` parameter carrying the exception message; `none`
  means the insert succeeds.
* Wall-clock time is modelled by explicit rational readings of the two
  `time.time()` calls of `generate_blog`, plus ghost durations for the
  persistence and audit awaits that run after the second reading.
* The external pipeline collaborators (validator, extractor, cleaner,
  keyword extractor, topic analyzer, prompt builder, generator, image
  fetcher, SEO post-processor) are black boxes per the repository design;
  they are fields of a `Collaborators` record, fallible exactly where
  `main.py` guards them with `try/except`.
-/

deriving instance DecidableEq for Except

namespace BlogAI

/-- A Python dict value as it occurs in the user dicts returned by
`create_user` / `authenticate_user` (`auth.py` lines 208-213 and 238-243). -/
inductive Val where
  | str : String → Val
  | optStr : Option String → Val
  | nat : Nat → Val
deriving DecidableEq

/-- Lookup of a string-valued key in an embedded Python dict (`user["id"]`). -/
def dgetStr (d : List (String × Val)) (k : String) : String :=
  match d.lookup k with
  | some (.str s) => s
  | _ => ""

/-- Lookup of an optional-string key (`user.get("name")`). -/
def dgetOptStr (d : List (String × Val)) (k : String) : Option String :=
  match d.lookup k with
  | some (.optStr s) => s
  | _ => none

/-- Lookup of a timestamp-valued key (`user["created_at"]`). -/
def dgetNat (d : List (String × Val)) (k : String) : Nat :=
  match d.lookup k with
  | some (.nat n) => n
  | _ => 0

/-- Decoded token data (`TokenData`, `auth.py` lines 52-56).  `exp` is a Unix
timestamp in whole seconds. -/
structure TokenData where
  user_id : String
  email : String
  exp : Nat
deriving DecidableEq

/-- A JWT as an abstract signed structure: whether the compact encoding is
structurally well formed, which secret produced the signature, and the three
payload claims `sub` / `email` / `exp` (each possibly absent).  This is the
information `jose.jwt.encode` / `jose.jwt.decode` exchange in `auth.py`. -/
structure JwtToken where
  wellFormed : Bool
  signedWith : String
  sub : Option String
  email : Option String
  exp : Option Nat
deriving DecidableEq

/-- Result of `jose.jwt.decode`: either a raised `JWTError`, or the decoded
payload claims. -/
inductive DecodeResult where
  | jwtError (msg : String)
  | payload (sub : Option String) (email : Option String) (exp : Option Nat)
deriving DecidableEq

/-- Behaviour of `jose.jwt.decode(token, key, algorithms=[alg])` as invoked
from `verify_token` (`auth.py` lines 117-121): a malformed token or a
signature made with a different secret raises `JWTError`; an `exp` claim in
the past raises `ExpiredSignatureError` (a `JWTError`); a payload *missing*
`exp` is accepted (python-jose's `require_exp` option defaults to `False`,
and expiry is only validated when the claim is present). -/
def joseDecode (t : JwtToken) (key : String) (now : Nat) : DecodeResult :=
  if ¬ t.wellFormed then .jwtError "Not enough segments"
  else if t.signedWith ≠ key then .jwtError "Signature verification failed."
  else
    match t.exp with
    | some e => if e < now then .jwtError "Signature has expired." else .payload t.sub t.email t.exp
    | none => .payload t.sub t.email t.exp

/-- `create_access_token` (`auth.py` lines 70-100): signs a payload carrying
`sub`, `email` and an absolute expiry `now + expiresDelta` (seconds) with the
process-wide secret. -/
def create_access_token (user_id email : String) (expiresDelta : Nat) (key : String)
    (now : Nat) : JwtToken :=
  { wellFormed := true
    signedWith := key
    sub := some user_id
    email := some email
    exp := some (now + expiresDelta) }

/-- `verify_token` (`auth.py` lines 103-132).  The `try` block catches only
`JWTError` (returning `None`, modelled `.ok none`).  After a successful
decode the code runs `datetime.fromtimestamp(payload.get("exp"))` *before*
the `None` checks on `sub` / `email`; when the payload has no `exp` claim
this raises an uncaught `TypeError`, modelled as `.error`. -/
def verify_token (t : JwtToken) (key : String) (now : Nat) :
    Except String (Option TokenData) :=
  match joseDecode t key now with
  | .jwtError _ => .ok none
  | .payload sub email exp? =>
    match exp? with
    | none => .error "TypeError: fromtimestamp() argument must not be None"
    | some e =>
      match sub, email with
      | some uid, some em => .ok (some ⟨uid, em, e⟩)
      | _, _ => .ok none

/-- An HTTP error response: status code and detail string, as produced by
`HTTPException` after the app-level handlers of `main.py` lines 372-397. -/
structure HErr where
  status : Nat
  detail : String
deriving DecidableEq

/-- A Python exception in flight inside a route handler: either a FastAPI
`HTTPException` or any other exception (carrying its message). -/
inductive PyErr where
  | http (code : Nat) (detail : String)
  | exc (msg : String)
deriving DecidableEq

/-- The application's exception handlers (`main.py` lines 372-397): an
`HTTPException` keeps its status and detail; any other uncaught exception is
turned into a 500 response with the generic error text
`"Internal server error"`. -/
def appHandle {α : Type} : Except PyErr α → Except HErr α
  | .ok a => .ok a
  | .error (.http c d) => .error ⟨c, d⟩
  | .error (.exc _) => .error ⟨500, "Internal server error"⟩

/-- Split a character list at its first space: the part before it, and
(when a space exists) the part after it. -/
def splitFirstSpace : List Char → List Char × Option (List Char)
  | [] => ([], none)
  | ch :: cs =>
    if ch = ' ' then ([], some cs)
    else
      let r := splitFirstSpace cs
      (ch :: r.1, r.2)

/-- Python's `str.partition(" ")` restricted to the first and last
components, as used by FastAPI's `get_authorization_scheme_param`: split at
the first space; a string with no space yields an empty second component. -/
def partition_space (s : String) : String × String :=
  match splitFirstSpace s.data with
  | (pre, none) => (String.mk pre, "")
  | (pre, some post) => (String.mk pre, String.mk post)

/-- `str.lower()` on the ASCII scheme names compared by FastAPI. -/
def strToLower (s : String) : String :=
  String.mk (s.data.map Char.toLower)

/-- The parsed `Authorization` header (`HTTPAuthorizationCredentials`). -/
structure Credentials where
  scheme : String
  credentials : String
deriving DecidableEq

/-- `security = HTTPBearer()` (`auth.py` line 20) with FastAPI's default
`auto_error=True`: a missing/empty header or one without both a scheme and a
parameter is rejected with `403 "Not authenticated"`; a scheme other than
`bearer` (case-insensitive) is rejected with
`403 "Invalid authentication credentials"`. -/
def httpBearer (authorization : Option String) : Except HErr Credentials :=
  match authorization with
  | none => .error ⟨403, "Not authenticated"⟩
  | some a =>
    let sp := partition_space a
    if a = "" ∨ sp.1 = "" ∨ sp.2 = "" then .error ⟨403, "Not authenticated"⟩
    else if strToLower sp.1 ≠ "bearer" then .error ⟨403, "Invalid authentication credentials"⟩
    else .ok ⟨sp.1, sp.2⟩

/-- `get_current_user` (`auth.py` lines 135-165), after `HTTPBearer` has
produced credentials: a `None` from `verify_token` becomes
`HTTPException 401 "Could not validate credentials"`; an exception raised by
`verify_token` (the missing-`exp` `TypeError`) propagates uncaught.  The
`parse` argument interprets the credential string of the header as the JWT
it encodes. -/
def get_current_user (key : String) (now : Nat) (parse : String → JwtToken)
    (creds : Credentials) : Except PyErr TokenData :=
  match verify_token (parse creds.credentials) key now with
  | .error m => .error (.exc m)
  | .ok none => .error (.http 401 "Could not validate credentials")
  | .ok (some td) => .ok td

/-- The full identity middleware of a protected route: `HTTPBearer` followed
by `get_current_user`.  An `Except.error` outcome means no identity is
injected into the handler. -/
def authedIdentity (key : String) (now : Nat) (parse : String → JwtToken)
    (authorization : Option String) : Except PyErr TokenData :=
  match httpBearer authorization with
  | .error e => .error (.http e.status e.detail)
  | .ok creds => get_current_user key now parse creds

/-- A stored user document (`auth.py` lines 196-202); `created_at` and
`updated_at` are Unix timestamps. -/
structure UserDoc where
  id : String
  email : String
  password_hash : String
  name : Option String
  created_at : Nat
  updated_at : Nat
deriving DecidableEq

/-- A stored history (audit) document (`auth.py` lines 258-263). -/
structure HistoryDoc where
  user_id : String
  action : String
  data : List (String × String)
  timestamp : Nat
deriving DecidableEq

/-- An image record (`ImageData` of `app/models.py`, reconstructed from its
use in `main.py`). -/
structure ImageData where
  url : String
deriving DecidableEq

/-- The keyword payload of the response (`KeywordData`). -/
structure KeywordData where
  primary_keywords : List String
  secondary_keywords : List String
  keyword_density : List (String × Nat)
deriving DecidableEq

/-- The analysis payload of the response (`ContentAnalysis`). -/
structure ContentAnalysis where
  summary : String
  intent : String
  topics : List String
  content_length : Nat
deriving DecidableEq

/-- The generated blog payload (`BlogContent`), reconstructed from its use in
`main.py` lines 246-253: the SEO-processed content plus the two image
fields attached at lines 246-247. -/
structure BlogContent where
  title : String
  content : String
  featured_image : Option ImageData
  additional_images : List ImageData
deriving DecidableEq

/-- The response of `POST /generate-blog` (`BlogGenerationResponse`),
reconstructed from its construction at `main.py` lines 257-273. -/
structure BlogGenerationResponse where
  success : Bool
  blog : BlogContent
  keywords : KeywordData
  analysis : ContentAnalysis
  word_count : Nat
  processing_time : ℚ
deriving DecidableEq

/-- A persisted blog document (`blog_doc`, `main.py` lines 278-288), with the
`_id` the store assigns at insert time. -/
structure BlogDoc where
  id : String
  user_id : String
  url : String
  title : String
  generated_at : Nat
  blog : BlogContent
  keywords : KeywordData
  analysis : ContentAnalysis
  word_count : Nat
  processing_time : ℚ
deriving DecidableEq

/-- The MongoDB database: the three collections used by the application
(`db.py` lines 106-118). -/
structure Store where
  users : List UserDoc
  history : List HistoryDoc
  blogs : List BlogDoc
deriving DecidableEq

/-- The environment-sourced settings consumed by the embedded code paths
(`config.py`); an empty string plays the role of an unset value. -/
structure Settings where
  mongodb_uri : String
  jwt_secret_key : String
  jwt_expiry_minutes : Nat
  unsplash_access_key : String
deriving DecidableEq

/-- `hash_password` (`auth.py` lines 64-67): returns the password unchanged
(the plaintext regression the spec calls out). -/
def hash_password (password : String) : String :=
  password

/-- `verify_password` (`auth.py` lines 59-61): plain equality. -/
def verify_password (plain_password stored_value : String) : Bool :=
  plain_password == stored_value

/-- `UserCreate` (`auth.py` lines 24-28). -/
structure UserCreate where
  email : String
  password : String
  name : Option String
deriving DecidableEq

/-- `log_user_action` (`auth.py` lines 246-263): a single unguarded
`insert_one` into the history collection.  `histFail = some m` injects the
driver raising an exception with message `m`, which propagates to the
caller (there is no `try/except` in this function). -/
def log_user_action (histFail : Option String) (now : Nat) (user_id action : String)
    (data : List (String × String)) (st : Store) : Except PyErr Store :=
  match histFail with
  | some m => .error (.exc m)
  | none => .ok { st with history := st.history ++ [⟨user_id, action, data, now⟩] }

/-- `create_user` (`auth.py` lines 169-213): pre-check by email, raising
`HTTPException 400 "Email already registered"` on a hit; then an unguarded
`insert_one` (`usersInsertFail = some m` injects the driver raising — e.g. a
`DuplicateKeyError` lost to a concurrent registration — which propagates);
on success the new document is stored and the password-free dict of lines
208-213 is returned. -/
def create_user (newId : String) (now : Nat) (usersInsertFail : Option String)
    (user_data : UserCreate) (st : Store) :
    Except PyErr (List (String × Val)) × Store :=
  match st.users.find? (fun u => u.email == user_data.email) with
  | some _ => (.error (.http 400 "Email already registered"), st)
  | none =>
    match usersInsertFail with
    | some m => (.error (.exc m), st)
    | none =>
      let user_doc : UserDoc :=
        ⟨newId, user_data.email, hash_password user_data.password, user_data.name, now, now⟩
      (.ok [("id", .str newId), ("email", .str user_data.email),
            ("name", .optStr user_data.name), ("created_at", .nat now)],
       { st with users := st.users ++ [user_doc] })

/-- `authenticate_user` (`auth.py` lines 216-243): look up by email, `None`
when absent; `None` when the password comparison fails; otherwise the
password-free dict of lines 238-243. -/
def authenticate_user (email password : String) (st : Store) :
    Option (List (String × Val)) :=
  match st.users.find? (fun u => u.email == email) with
  | none => none
  | some user =>
    if ¬ verify_password password user.password_hash then none
    else
      some [("id", .str user.id), ("email", .str user.email),
            ("name", .optStr user.name), ("created_at", .nat user.created_at)]

/-- `UserResponse` (`auth.py` lines 37-42): the registration response model
(no password field). -/
structure UserResponse where
  id : String
  email : String
  name : Option String
  created_at : Nat
deriving DecidableEq

/-- `Token` (`auth.py` lines 45-49): the login response model. -/
structure Token where
  access_token : JwtToken
  token_type : String
  expires_in : Nat
deriving DecidableEq

/-- `POST /auth/register` (`routes/auth.py` lines 22-50): 503 when the store
is unconfigured; `create_user`; `log_user_action` (whose failure
propagates); then the `UserResponse`. -/
def register (s : Settings) (newId : String) (now : Nat)
    (usersInsertFail histFail : Option String) (user_data : UserCreate) (st : Store) :
    Except PyErr UserResponse × Store :=
  if s.mongodb_uri = "" then
    (.error (.http 503 "User registration not available (database not configured)"), st)
  else
    match create_user newId now usersInsertFail user_data st with
    | (.error e, st') => (.error e, st')
    | (.ok user, st') =>
      match log_user_action histFail now (dgetStr user "id") "register" [] st' with
      | .error e => (.error e, st')
      | .ok st'' =>
        (.ok ⟨dgetStr user "id", dgetStr user "email",
              dgetOptStr user "name", dgetNat user "created_at"⟩, st'')

/-- `POST /auth/register` after the application exception handlers. -/
def registerEndpoint (s : Settings) (newId : String) (now : Nat)
    (usersInsertFail histFail : Option String) (user_data : UserCreate) (st : Store) :
    Except HErr UserResponse × Store :=
  let r := register s newId now usersInsertFail histFail user_data st
  (appHandle r.1, r.2)

/-- `POST /auth/login` (`routes/auth.py` lines 53-95): 503 when the store is
unconfigured; `authenticate_user`, failing 401 on `None`;
`create_access_token` with the configured expiry; `log_user_action` (whose
failure propagates); then the `Token` response. -/
def login (s : Settings) (now : Nat) (histFail : Option String)
    (email password : String) (st : Store) : Except PyErr Token × Store :=
  if s.mongodb_uri = "" then
    (.error (.http 503 "User authentication not available (database not configured)"), st)
  else
    match authenticate_user email password st with
    | none => (.error (.http 401 "Invalid email or password"), st)
    | some user =>
      let access_token := create_access_token (dgetStr user "id") (dgetStr user "email")
        (s.jwt_expiry_minutes * 60) s.jwt_secret_key now
      match log_user_action histFail now (dgetStr user "id") "login" [] st with
      | .error e => (.error e, st)
      | .ok st' => (.ok ⟨access_token, "bearer", s.jwt_expiry_minutes * 60⟩, st')

/-- `POST /auth/login` after the application exception handlers. -/
def loginEndpoint (s : Settings) (now : Nat) (histFail : Option String)
    (email password : String) (st : Store) : Except HErr Token × Store :=
  let r := login s now histFail email password st
  (appHandle r.1, r.2)

/-- `POST /auth/logout` (`routes/auth.py` lines 98-109): records a logout
audit entry (whose failure propagates) and returns a message; nothing else
is read or written. -/
def logout (histFail : Option String) (now : Nat) (current_user : TokenData)
    (st : Store) : Except PyErr String × Store :=
  match log_user_action histFail now current_user.user_id "logout" [] st with
  | .error e => (.error e, st)
  | .ok st' => (.ok "Logged out successfully", st')

/-- `POST /auth/logout` after the application exception handlers. -/
def logoutEndpoint (histFail : Option String) (now : Nat) (current_user : TokenData)
    (st : Store) : Except HErr String × Store :=
  let r := logout histFail now current_user st
  (appHandle r.1, r.2)

/-- `GET /auth/me` (`routes/auth.py` lines 112-120) as a protected route: the
identity middleware runs against the server's current store state
(`_store`), which the code path never consults — the handler just returns
the verified claims. -/
def get_me (s : Settings) (now : Nat) (parse : String → JwtToken)
    (authorization : Option String) (_store : Store) : Except HErr TokenData :=
  appHandle (authedIdentity s.jwt_secret_key now parse authorization)

/-- The result of `content_extractor.extract` (a dict with at least `text`
and `title`, per its use at `main.py` lines 171-189). -/
structure ContentData where
  text : String
  title : String
deriving DecidableEq

/-- The result of `keyword_extractor.extract_and_categorize` (`main.py`
lines 183, 200-201, 242, 261-263). -/
structure KeywordExtraction where
  primary_keywords : List String
  secondary_keywords : List String
  keyword_density : List (String × Nat)
deriving DecidableEq

/-- The result of `topic_analyzer.analyze` (`main.py` lines 187-191,
198-202, 266-269). -/
structure AnalysisData where
  summary : String
  intent : String
  topics : List String
  content_length : Nat
deriving DecidableEq

/-- The result of `seo_postprocessor.process` (`main.py` lines 243-254,
276): the processed blog payload and the SEO analysis numbers. -/
structure SeoResult where
  blog_title : String
  blog_content : String
  word_count : Nat
  seo_score : Nat
deriving DecidableEq

/-- The nine external stage collaborators, constructed once at startup
(`main.py` lines 97-105).  Each is fallible exactly where `main.py` wraps
its call in `try/except`: extraction raises `ValueError`, generation and the
two image calls raise arbitrary exceptions; the remaining calls are used
unguarded. -/
structure Collaborators where
  validate : String → Bool × String
  extract : String → Except String ContentData
  clean : String → String
  extract_and_categorize : String → KeywordExtraction
  analyze : String → String → List String → AnalysisData
  build_prompt : String → String → String → String → List String → List String →
    List String → String → Nat → String
  generate : String → Except String String
  get_featured_image : List String → Except String (Option ImageData)
  fetch_images : List String → Nat → Except String (List ImageData)
  process : String → List String → SeoResult

/-- Step 8 of `generate_blog` (`main.py` lines 214-238): only attempted when
an Unsplash key is configured; one `try` block around both image calls, so
an exception in `get_featured_image` leaves both defaults, while an
exception in `fetch_images` keeps a featured image already assigned and
leaves `additional_images = []`; the whole failure is logged and swallowed. -/
def fetchImagesStage (c : Collaborators) (hasUnsplashKey : Bool)
    (primary : List String) : Option ImageData × List ImageData :=
  if hasUnsplashKey then
    match c.get_featured_image primary with
    | .error _ => (none, [])
    | .ok fd =>
      match c.fetch_images primary 3 with
      | .error _ => (fd, [])
      | .ok imgs => (fd, imgs)
  else (none, [])

/-- `BlogGenerationRequest` (reconstructed from its use in `main.py`
lines 156-204). -/
structure BlogGenerationRequest where
  url : String
  tone : String
  word_count : Nat
deriving DecidableEq

/-- The wall-clock readings of one `generate_blog` request: `start_time` is
the `time.time()` call at `main.py` line 156 and `pre_response` the one at
line 250.  `persist_duration` and `audit_duration` are ghost quantities: the
wall-clock time the artifact insert (line 291) and the audit insert
(line 294) take *after* the second reading; the code never reads them. -/
structure Timing where
  start_time : ℚ
  pre_response : ℚ
  persist_duration : ℚ
  audit_duration : ℚ
deriving DecidableEq

/-- Round half to even on an exact rational, as Python's builtin `round`
specifies for ties. -/
def roundHalfEven (q : ℚ) : ℤ :=
  let f := ⌊q⌋
  let r := q - f
  if r < 1/2 then f
  else if 1/2 < r then f + 1
  else if f % 2 = 0 then f else f + 1

/-- Python's `round(x, 2)` on the embedded exact time values. -/
def pyRound2 (q : ℚ) : ℚ :=
  (roundHalfEven (q * 100) : ℚ) / 100

/-- Injected driver failures for the two inserts of `generate_blog`
(`main.py` lines 291 and 294): `some m` makes the corresponding
`insert_one` raise an exception with message `m`. -/
structure GenerateFailures where
  blogsInsert : Option String
  historyInsert : Option String
deriving DecidableEq

/-- Steps 1-9 of `generate_blog` plus the response construction (`main.py`
lines 156-273): URL validation (fatal, 400), content extraction
(`ValueError` fatal, 400), cleaning (fatal when empty, 400), keyword
extraction, topic analysis, prompt building, generation (fatal, 500), the
degradable image stage, SEO post-processing, the second `time.time()`
reading and the `BlogGenerationResponse`. -/
def runPipeline (c : Collaborators) (s : Settings) (t : Timing)
    (request : BlogGenerationRequest) : Except HErr BlogGenerationResponse :=
  let url := request.url
  let v := c.validate url
  if ¬ v.1 then .error ⟨400, "URL validation failed: " ++ v.2⟩
  else
    match c.extract url with
    | .error e => .error ⟨400, "Content extraction failed: " ++ e⟩
    | .ok content_data =>
      let cleaned_text := c.clean content_data.text
      if cleaned_text = "" then .error ⟨400, "No usable content found after cleaning"⟩
      else
        let keyword_data := c.extract_and_categorize cleaned_text
        let analysis_data := c.analyze cleaned_text content_data.title
          keyword_data.primary_keywords
        let prompt := c.build_prompt url content_data.title analysis_data.summary
          analysis_data.intent keyword_data.primary_keywords
          keyword_data.secondary_keywords analysis_data.topics request.tone
          request.word_count
        match c.generate prompt with
        | .error e => .error ⟨500, "Blog generation failed: " ++ e⟩
        | .ok blog_data =>
          let images := fetchImagesStage c (s.unsplash_access_key ≠ "")
            keyword_data.primary_keywords
          let all_keywords := keyword_data.primary_keywords ++
            keyword_data.secondary_keywords
          let processed_result := c.process blog_data all_keywords
          let processing_time := t.pre_response - t.start_time
          let blog_content : BlogContent :=
            ⟨processed_result.blog_title, processed_result.blog_content,
             images.1, images.2⟩
          .ok ⟨true, blog_content,
               ⟨keyword_data.primary_keywords, keyword_data.secondary_keywords,
                keyword_data.keyword_density⟩,
               ⟨analysis_data.summary, analysis_data.intent, analysis_data.topics,
                analysis_data.content_length⟩,
               processed_result.word_count, pyRound2 processing_time⟩

/-- The persisted `blog_doc` (`main.py` lines 278-288), all of whose fields
come from the request, the identity, the insert-assigned id, the
`datetime.utcnow()` reading `genAt`, and the already-built response. -/
def mkBlogDoc (newBlogId : String) (current_user : TokenData) (url : String)
    (genAt : Nat) (response : BlogGenerationResponse) : BlogDoc :=
  ⟨newBlogId, current_user.user_id, url, response.blog.title, genAt,
   response.blog, response.keywords, response.analysis, response.word_count,
   response.processing_time⟩

/-- `POST /generate-blog` (`main.py` lines 136-313).  The pipeline of
`runPipeline` runs inside a `try` whose handlers re-raise `HTTPException`
and convert any other exception to
`HTTPException 500 ("Internal server error: " ++ msg)`; after a successful
pipeline the artifact is inserted (a failure there propagates to the 500
handler, leaving the store unchanged), then the audit entry is written via
`log_user_action` (a failure there also propagates to the 500 handler, with
the artifact already persisted), and only then is the response returned. -/
def generate_blog (c : Collaborators) (s : Settings) (fail : GenerateFailures)
    (t : Timing) (genAt : Nat) (newBlogId : String)
    (request : BlogGenerationRequest) (current_user : TokenData) (st : Store) :
    Except HErr BlogGenerationResponse × Store :=
  match runPipeline c s t request with
  | .error e => (.error e, st)
  | .ok response =>
    match fail.blogsInsert with
    | some m => (.error ⟨500, "Internal server error: " ++ m⟩, st)
    | none =>
      let blog_doc := mkBlogDoc newBlogId current_user request.url genAt response
      let st₁ := { st with blogs := st.blogs ++ [blog_doc] }
      match log_user_action fail.historyInsert genAt current_user.user_id
          "generate_blog"
          [("url", request.url), ("title", response.blog.title),
           ("blog_id", newBlogId)] st₁ with
      | .error (.http code d) => (.error ⟨code, d⟩, st₁)
      | .error (.exc m) => (.error ⟨500, "Internal server error: " ++ m⟩, st₁)
      | .ok st₂ => (.ok response, st₂)

/-- Whether `bson.ObjectId(s)` accepts the string: exactly 24 hexadecimal
characters. -/
def validObjectId (s : String) : Bool :=
  s.data.length == 24 && s.data.all (fun ch => ch.isDigit ||
    ('a' ≤ ch && ch ≤ 'f') || ('A' ≤ ch && ch ≤ 'F'))

/-- `GET /blogs/{blog_id}` (`main.py` lines 316-337): 400 when the id is not
a well-formed `ObjectId`; a single `find_one` keyed on both `_id` and the
caller's `user_id`, answering 404 when nothing matches; otherwise the stored
artifact is returned. -/
def get_blog (blog_id : String) (current_user : TokenData) (st : Store) :
    Except HErr BlogGenerationResponse :=
  if ¬ validObjectId blog_id then .error ⟨400, "Invalid blog ID"⟩
  else
    match st.blogs.find? (fun d => d.id == blog_id && d.user_id == current_user.user_id) with
    | none => .error ⟨404, "Blog not found"⟩
    | some doc =>
      .ok ⟨true, doc.blog, doc.keywords, doc.analysis, doc.word_count,
           doc.processing_time⟩

/-! ### Concrete fixtures

Test doubles used as witnesses and counterexamples below. -/

/-- Stage collaborators that all succeed. -/
def okCollab : Collaborators where
  validate := fun _ => (true, "")
  extract := fun _ => .ok ⟨"some page text", "A Title"⟩
  clean := fun t => t
  extract_and_categorize := fun _ => ⟨["kw1"], ["kw2"], [("kw1", 2)]⟩
  analyze := fun _ _ _ => ⟨"a summary", "informational", ["a topic"], 14⟩
  build_prompt := fun _ _ _ _ _ _ _ _ _ => "the prompt"
  generate := fun _ => .ok "generated blog body"
  get_featured_image := fun _ => .ok (some ⟨"https://images.example/1"⟩)
  fetch_images := fun _ _ => .ok [⟨"https://images.example/2"⟩]
  process := fun _ _ => ⟨"SEO Title", "SEO Content", 800, 90⟩

/-- The successful collaborators with a generation stage that always raises. -/
def genFailCollab : Collaborators :=
  { okCollab with generate := fun _ => .error "model unavailable" }

/-- A fully configured settings value. -/
def stubSettings : Settings :=
  ⟨"mongodb+srv://cluster0.mongodb.net", "topsecret", 60, "unsplash-key"⟩

/-- Timing readings of one request: the pipeline runs from 0 to 1 seconds,
then persistence takes 5 more seconds and the audit write 3 more. -/
def stubTiming : Timing := ⟨0, 1, 5, 3⟩

/-- An authenticated identity. -/
def stubUser : TokenData := ⟨"507f1f77bcf86cd799439011", "u1@example.com", 4000⟩

/-- A pipeline request. -/
def stubRequest : BlogGenerationRequest := ⟨"https://example.com", "informative", 800⟩

/-- The empty database. -/
def emptyStore : Store := ⟨[], [], []⟩

/-- A stored user record for `u1@example.com`. -/
def stubUserDoc : UserDoc :=
  ⟨"507f1f77bcf86cd799439011", "u1@example.com", "pw1", some "User One", 10, 10⟩

/-- A blog document owned by a *different* user than `stubUser`. -/
def otherOwnerBlogDoc : BlogDoc :=
  ⟨"64a1f77bcf86cd7994390aa1", "other-user-id", "https://example.org", "Their Post",
   20, ⟨"Their Post", "their content", none, []⟩, ⟨[], [], []⟩, ⟨"", "", [], 0⟩, 500, 1⟩

/-- A registration payload for an email already present in `stubUserDoc`. -/
def dupUserCreate : UserCreate := ⟨"u1@example.com", "pw2", some "User Two"⟩

/-- A registration payload for a fresh email. -/
def freshUserCreate : UserCreate := ⟨"u2@example.com", "pw2", some "User Two"⟩

/-- A token-string decoder for headers: the fixed credential string
`"goodtoken"` denotes the token issued to `stubUser` by the configured
secret; everything else is structurally malformed. -/
def stubParse (cred : String) : JwtToken :=
  if cred = "goodtoken" then
    create_access_token stubUser.user_id stubUser.email 3600 "topsecret" 400
  else
    ⟨false, "", none, none, none⟩

/-- The response of the fully successful baseline run of `okCollab` with
`stubSettings`, `stubTiming`, `stubRequest` and `stubUser`. -/
def okResponse : BlogGenerationResponse :=
  ⟨true,
   ⟨"SEO Title", "SEO Content", some ⟨"https://images.example/1"⟩,
    [⟨"https://images.example/2"⟩]⟩,
   ⟨["kw1"], ["kw2"], [("kw1", 2)]⟩,
   ⟨"a summary", "informational", ["a topic"], 14⟩,
   800, pyRound2 (1 - 0)⟩

/-- The artifact document the baseline run persists. -/
def okBlogDoc : BlogDoc :=
  mkBlogDoc "64a1f77bcf86cd7994390aa1" stubUser "https://example.com" 100 okResponse

/-- The store the baseline run leaves behind when started on `emptyStore`. -/
def okFinalStore : Store :=
  ⟨[],
   [⟨"507f1f77bcf86cd799439011", "generate_blog",
     [("url", "https://example.com"), ("title", "SEO Title"),
      ("blog_id", "64a1f77bcf86cd7994390aa1")], 100⟩],
   [okBlogDoc]⟩

/-- A pipeline response with its two image fields emptied, the degraded
shape of `main.py` lines 216-217 when the image stage fails. -/
def stripImages (r : BlogGenerationResponse) : BlogGenerationResponse :=
  { r with blog := { r.blog with featured_image := none, additional_images := [] } }

/-- The acceptance condition of `HTTPBearer` on the authorization header: a
header is present, splits into a non-empty scheme and a non-empty parameter,
and the scheme is `bearer` up to case. -/
def bearerWellFormed (authorization : Option String) : Bool :=
  match authorization with
  | none => false
  | some a =>
    let sp := partition_space a
    (!(a == "" || sp.1 == "" || sp.2 == "")) && (strToLower sp.1 == "bearer")

/-! ### Theorems -/

/-- Rounding an integer-valued rational is the identity. -/
theorem roundHalfEven_intCast (n : ℤ) : roundHalfEven (n : ℚ) = n := by
  unfold roundHalfEven
  rw [Int.floor_intCast, if_pos]
  norm_num

/-- `pyRound2` fixes integer-valued rationals. -/
theorem pyRound2_intCast (n : ℤ) : pyRound2 (n : ℚ) = n := by
  unfold pyRound2
  rw [show ((n : ℚ) * 100) = ((n * 100 : ℤ) : ℚ) by push_cast; ring,
    roundHalfEven_intCast]
  push_cast
  ring

/-- The baseline run: with successful collaborators and no injected driver
failure, `generate_blog` succeeds, persists the artifact and appends the
audit entry. -/
theorem okRun :
    generate_blog okCollab stubSettings ⟨none, none⟩ stubTiming 100
      "64a1f77bcf86cd7994390aa1" stubRequest stubUser emptyStore
      = (.ok okResponse, okFinalStore) := rfl

/-- The pipeline reads only the two `time.time()` samples of the timing
value, never the ghost durations. -/
theorem runPipeline_timing (c : Collaborators) (s : Settings) (t : Timing)
    (pD aD : ℚ) (req : BlogGenerationRequest) :
    runPipeline c s ⟨t.start_time, t.pre_response, pD, aD⟩ req
      = runPipeline c s t req := by
  cases t
  rfl

/-- Every successful pipeline response carries exactly the rounded
difference of the two `time.time()` samples as its `processing_time`. -/
theorem runPipeline_ok_processing_time (c : Collaborators) (s : Settings)
    (t : Timing) (req : BlogGenerationRequest) (r : BlogGenerationResponse)
    (h : runPipeline c s t req = .ok r) :
    r.processing_time = pyRound2 (t.pre_response - t.start_time) := by
  simp only [runPipeline] at h
  split at h
  · exact absurd h (by simp)
  · split at h
    · exact absurd h (by simp)
    · split at h
      · exact absurd h (by simp)
      · split at h
        · exact absurd h (by simp)
        · cases h
          rfl

/-- C4: on concrete tokens (verified against the secret `"topsecret"` at time
400), a malformed token, a token signed with a different secret, an expired
token, and tokens missing the `sub` or `email` claim all produce the same
`None`-result (mapped to the single 401 by `get_current_user`); but a
correctly signed, well-formed, unexpired token that merely lacks the `exp`
claim makes `verify_token` raise an uncaught `TypeError`
(`datetime.fromtimestamp(None)`), an exceptional control path that surfaces
as a 500 — the code contradicts its own docstring ("None if invalid"). -/
theorem verify_token_missing_exp_raises :
    verify_token ⟨false, "topsecret", some "u", some "e", some 4000⟩ "topsecret" 400 = .ok none
    ∧ verify_token ⟨true, "wrongsecret", some "u", some "e", some 4000⟩ "topsecret" 400 = .ok none
    ∧ verify_token ⟨true, "topsecret", some "u", some "e", some 100⟩ "topsecret" 400 = .ok none
    ∧ verify_token ⟨true, "topsecret", none, some "e", some 4000⟩ "topsecret" 400 = .ok none
    ∧ verify_token ⟨true, "topsecret", some "u", none, some 4000⟩ "topsecret" 400 = .ok none
    ∧ verify_token ⟨true, "topsecret", some "u", some "e", none⟩ "topsecret" 400
        = .error "TypeError: fromtimestamp() argument must not be None" := by
  decide

/-- C5 counterexample: an absent authorization header and a malformed one
(wrong scheme) are both rejected by the `HTTPBearer` dependency with status
403 ("Forbidden"), not with the 401 Unauthorized outcome the claim states. -/
theorem missing_auth_header_gives_403_not_401 :
    authedIdentity "topsecret" 400 stubParse none
      = .error (.http 403 "Not authenticated")
    ∧ authedIdentity "topsecret" 400 stubParse (some "Token goodtoken")
      = .error (.http 403 "Invalid authentication credentials")
    ∧ (403 : Nat) ≠ 401 := by
  refine ⟨rfl, ?_, by decide⟩
  decide

/-- C5 amended: for every request whose authorization header is absent or not
a well-formed bearer credential, the identity middleware rejects the request
with status 403 (FastAPI `HTTPBearer` with its default `auto_error=True`) —
not 401 — and injects no identity (the dependency resolves to an error, so
the handler never runs). -/
theorem unauthenticated_requests_rejected_403 (key : String) (now : Nat)
    (parse : String → JwtToken) (authorization : Option String)
    (h : bearerWellFormed authorization = false) :
    authedIdentity key now parse authorization
        = .error (.http 403 "Not authenticated") ∨
    authedIdentity key now parse authorization
        = .error (.http 403 "Invalid authentication credentials") := by
  cases authorization with
  | none => left; rfl
  | some a =>
    by_cases h1 : a = "" ∨ (partition_space a).1 = "" ∨ (partition_space a).2 = ""
    · left
      simp [authedIdentity, httpBearer, h1]
    · by_cases h2 : strToLower (partition_space a).1 = "bearer"
      · exfalso
        push_neg at h1
        simp [bearerWellFormed, h1.1, h1.2.1, h1.2.2, h2] at h
      · right
        simp [authedIdentity, httpBearer, h1, h2]

/-- C5 witness: the amended theorem applied to the absent-header request. -/
theorem unauthenticated_requests_rejected_403_witness :
    authedIdentity "topsecret" 400 stubParse none
        = .error (.http 403 "Not authenticated") ∨
    authedIdentity "topsecret" 400 stubParse none
        = .error (.http 403 "Invalid authentication credentials") :=
  unauthenticated_requests_rejected_403 "topsecret" 400 stubParse none (by decide)

/-- C7: artifact retrieval enforces ownership without leaking existence: an
ill-formed id yields the 400 error; and whenever no stored artifact has both
the requested id and the caller as owner — whether the artifact does not
exist at all or belongs to a different identity — the result is the one
fixed `404 "Blog not found"` value, so the two situations are
indistinguishable and no artifact content is returned. -/
theorem get_blog_access_control (blog_id : String) (current_user : TokenData)
    (st : Store) :
    (validObjectId blog_id = false →
      get_blog blog_id current_user st = .error ⟨400, "Invalid blog ID"⟩)
    ∧ (validObjectId blog_id = true →
        (∀ d ∈ st.blogs, d.id = blog_id → d.user_id ≠ current_user.user_id) →
        get_blog blog_id current_user st = .error ⟨404, "Blog not found"⟩) := by
  constructor
  · intro h
    unfold get_blog
    rw [if_pos (by simp [h])]
  · intro hv hown
    unfold get_blog
    rw [if_neg (by simp [hv])]
    have hnone : st.blogs.find?
        (fun d => d.id == blog_id && d.user_id == current_user.user_id) = none := by
      rw [List.find?_eq_none]
      intro d hd
      simp only [Bool.and_eq_true, beq_iff_eq, not_and]
      intro hid
      exact hown d hd hid
    rw [hnone]

/-- C7 witness: a malformed id is a 400, and an existing artifact owned by a
different identity is the same 404 as a non-existent one. -/
theorem get_blog_access_control_witness :
    (get_blog "zz" stubUser ⟨[], [], [otherOwnerBlogDoc]⟩
      = .error ⟨400, "Invalid blog ID"⟩)
    ∧ (get_blog "64a1f77bcf86cd7994390aa1" stubUser ⟨[], [], [otherOwnerBlogDoc]⟩
        = .error ⟨404, "Blog not found"⟩) :=
  ⟨(get_blog_access_control "zz" stubUser ⟨[], [], [otherOwnerBlogDoc]⟩).1 (by decide),
   (get_blog_access_control "64a1f77bcf86cd7994390aa1" stubUser
      ⟨[], [], [otherOwnerBlogDoc]⟩).2 (by decide) (by decide)⟩

/-- C6: whenever the earlier stages succeed but the generation collaborator
raises (message `e`), `generate_blog` answers exactly
`500 "Blog generation failed: e"` and returns the store unchanged: no
artifact document is persisted and no `generate_blog` audit entry is
written. -/
theorem generation_failure_aborts_without_persistence
    (c : Collaborators) (s : Settings) (fail : GenerateFailures) (t : Timing)
    (genAt : Nat) (newBlogId : String) (request : BlogGenerationRequest)
    (current_user : TokenData) (st : Store) (e : String) (cd : ContentData)
    (hv : (c.validate request.url).1 = true)
    (hx : c.extract request.url = .ok cd)
    (hc : c.clean cd.text ≠ "")
    (hg : ∀ p, c.generate p = .error e) :
    generate_blog c s fail t genAt newBlogId request current_user st
      = (.error ⟨500, "Blog generation failed: " ++ e⟩, st) := by
  simp [generate_blog, runPipeline, hv, hx, hc, hg]

/-- C6 witness: with a generation stage that raises `"model unavailable"`,
the concrete run returns the 500 error and leaves the empty store empty. -/
theorem generation_failure_aborts_witness :
    generate_blog genFailCollab stubSettings ⟨none, none⟩ stubTiming 100
      "64a1f77bcf86cd7994390aa1" stubRequest stubUser emptyStore
      = (.error ⟨500, "Blog generation failed: model unavailable"⟩, emptyStore) :=
  generation_failure_aborts_without_persistence genFailCollab stubSettings
    ⟨none, none⟩ stubTiming 100 "64a1f77bcf86cd7994390aa1" stubRequest stubUser
    emptyStore "model unavailable" ⟨"some page text", "A Title"⟩
    rfl rfl (by decide) (fun _ => rfl)

/-- C9: logging out only appends a `logout` audit entry — users and blogs
are untouched — and a token issued before the logout keeps verifying
successfully afterwards: `verify_token` yields the same identity claims at
any unexpired instant, and the outcome of a subsequent protected request
(`get_me`) against the post-logout store equals the outcome against the
pre-logout store. -/
theorem logout_preserves_token_validity
    (s : Settings) (uid email : String) (issuedAt delta now nowVerify : Nat)
    (parse : String → JwtToken) (authorization : Option String)
    (current_user : TokenData) (st : Store)
    (hunexpired : nowVerify ≤ issuedAt + delta) :
    (logout none now current_user st).1 = .ok "Logged out successfully"
    ∧ (logout none now current_user st).2.users = st.users
    ∧ (logout none now current_user st).2.blogs = st.blogs
    ∧ (logout none now current_user st).2.history
        = st.history ++ [⟨current_user.user_id, "logout", [], now⟩]
    ∧ verify_token (create_access_token uid email delta s.jwt_secret_key issuedAt)
        s.jwt_secret_key nowVerify = .ok (some ⟨uid, email, issuedAt + delta⟩)
    ∧ get_me s nowVerify parse authorization ((logout none now current_user st).2)
        = get_me s nowVerify parse authorization st := by
  refine ⟨rfl, rfl, rfl, rfl, ?_, rfl⟩
  simp [verify_token, joseDecode, create_access_token, Nat.not_lt.mpr hunexpired]

/-- C9 witness: the theorem at a concrete issued token, verified 100 seconds
after a logout that happened in between. -/
theorem logout_preserves_token_validity_witness :
    (logout none 450 stubUser ⟨[stubUserDoc], [], []⟩).1 = .ok "Logged out successfully"
    ∧ (logout none 450 stubUser ⟨[stubUserDoc], [], []⟩).2.users = [stubUserDoc]
    ∧ (logout none 450 stubUser ⟨[stubUserDoc], [], []⟩).2.blogs = []
    ∧ (logout none 450 stubUser ⟨[stubUserDoc], [], []⟩).2.history
        = [] ++ [⟨stubUser.user_id, "logout", [], 450⟩]
    ∧ verify_token (create_access_token "u" "u1@example.com" 3600
          stubSettings.jwt_secret_key 400) stubSettings.jwt_secret_key 500
        = .ok (some ⟨"u", "u1@example.com", 400 + 3600⟩)
    ∧ get_me stubSettings 500 stubParse (some "Bearer goodtoken")
          ((logout none 450 stubUser ⟨[stubUserDoc], [], []⟩).2)
        = get_me stubSettings 500 stubParse (some "Bearer goodtoken")
          ⟨[stubUserDoc], [], []⟩ :=
  logout_preserves_token_validity stubSettings "u" "u1@example.com" 400 3600 450 500
    stubParse (some "Bearer goodtoken") stubUser ⟨[stubUserDoc], [], []⟩ (by decide)

/-- C10: the user value returned by a successful `create_user` is exactly
the dict with keys `id`, `email`, `name`, `created_at` — it is independent
of the submitted password, and `password_hash` is not among its keys; and
every user value a successful `authenticate_user` returns carries exactly
those same four keys, without `password_hash`. -/
theorem user_records_exclude_credentials
    (newId : String) (now : Nat) (ud : UserCreate) (st : Store)
    (email password passwordOther : String)
    (hfresh : st.users.find? (fun u => u.email == ud.email) = none) :
    ((create_user newId now none ud st).1
        = .ok [("id", .str newId), ("email", .str ud.email),
               ("name", .optStr ud.name), ("created_at", .nat now)])
    ∧ ((create_user newId now none ⟨ud.email, passwordOther, ud.name⟩ st).1
        = (create_user newId now none ud st).1)
    ∧ (∀ d, authenticate_user email password st = some d →
        d.map Prod.fst = ["id", "email", "name", "created_at"]
        ∧ "password_hash" ∉ d.map Prod.fst) := by
  refine ⟨?_, ?_, ?_⟩
  · simp [create_user, hfresh]
  · simp [create_user, hfresh]
  · intro d hd
    unfold authenticate_user at hd
    cases hu : st.users.find? (fun u => u.email == email) with
    | none => rw [hu] at hd; exact absurd hd (by simp)
    | some u =>
      rw [hu] at hd
      dsimp only at hd
      by_cases hp : verify_password password u.password_hash = true
      · rw [if_neg (by simp [hp])] at hd
        cases hd
        constructor
        · rfl
        · simp
      · rw [if_pos (by simp [hp])] at hd
        exact absurd hd (by simp)

/-- C10 witness: the theorem applied to a fresh registration and a
successful authentication against a store holding one user. -/
theorem user_records_exclude_credentials_witness :
    ((create_user "507f191e810c19729de860ea" 30 none freshUserCreate
        ⟨[stubUserDoc], [], []⟩).1
      = .ok [("id", .str "507f191e810c19729de860ea"),
             ("email", .str "u2@example.com"),
             ("name", .optStr (some "User Two")), ("created_at", .nat 30)])
    ∧ ((create_user "507f191e810c19729de860ea" 30 none
          ⟨"u2@example.com", "another-pw", some "User Two"⟩ ⟨[stubUserDoc], [], []⟩).1
        = (create_user "507f191e810c19729de860ea" 30 none freshUserCreate
          ⟨[stubUserDoc], [], []⟩).1)
    ∧ ([("id", Val.str "507f1f77bcf86cd799439011"),
        ("email", Val.str "u1@example.com"),
        ("name", Val.optStr (some "User One")), ("created_at", Val.nat 10)].map
          Prod.fst = ["id", "email", "name", "created_at"]
       ∧ "password_hash" ∉ [("id", Val.str "507f1f77bcf86cd799439011"),
          ("email", Val.str "u1@example.com"),
          ("name", Val.optStr (some "User One")),
          ("created_at", Val.nat 10)].map Prod.fst) := by
  have h := user_records_exclude_credentials "507f191e810c19729de860ea" 30
    freshUserCreate ⟨[stubUserDoc], [], []⟩ "u1@example.com" "pw1" "another-pw"
    (by decide)
  exact ⟨h.1, h.2.1, h.2.2 _ (by decide)⟩

/-- C1 counterexample: with every stage succeeding and only the audit-trail
insert raising, `generate_blog` does not return its success result: the
exception escapes `log_user_action` into the route's catch-all and the
caller receives a 500 — and `logout` behaves the same way.  The audit
failure is not merely logged. -/
theorem audit_write_failure_fails_operation_cx :
    (generate_blog okCollab stubSettings ⟨none, some "history insert failed"⟩
        stubTiming 100 "64a1f77bcf86cd7994390aa1" stubRequest stubUser emptyStore).1
      = .error ⟨500, "Internal server error: history insert failed"⟩
    ∧ (logoutEndpoint (some "history insert failed") 450 stubUser emptyStore).1
      = .error ⟨500, "Internal server error"⟩ := ⟨rfl, rfl⟩

/-- C1 amended: an audit-write failure makes the primary operation fail
instead of returning its success result: `generate_blog` answers
`500 "Internal server error: …"` (the artifact is nonetheless already
persisted, since the blog insert precedes the audit write), and `register` /
`login` / `logout` propagate the audit exception, surfacing as the generic
500 of the application's exception handler. -/
theorem audit_write_failure_fails_operation (msg : String) :
    (∀ (c : Collaborators) (s : Settings) (t : Timing) (genAt : Nat) (bid : String)
       (req : BlogGenerationRequest) (user : TokenData) (st : Store)
       (resp : BlogGenerationResponse) (st' : Store),
       generate_blog c s ⟨none, none⟩ t genAt bid req user st = (.ok resp, st') →
       (generate_blog c s ⟨none, some msg⟩ t genAt bid req user st).1
           = .error ⟨500, "Internal server error: " ++ msg⟩
         ∧ (generate_blog c s ⟨none, some msg⟩ t genAt bid req user st).2.blogs
           = st'.blogs)
    ∧ (∀ (s : Settings) (newId : String) (now : Nat) (ud : UserCreate) (st : Store),
        ¬ s.mongodb_uri = "" →
        st.users.find? (fun u => u.email == ud.email) = none →
        (registerEndpoint s newId now none (some msg) ud st).1
          = .error ⟨500, "Internal server error"⟩)
    ∧ (∀ (s : Settings) (now : Nat) (email password : String) (st : Store)
         (d : List (String × Val)),
        ¬ s.mongodb_uri = "" →
        authenticate_user email password st = some d →
        (loginEndpoint s now (some msg) email password st).1
          = .error ⟨500, "Internal server error"⟩)
    ∧ (∀ (now : Nat) (user : TokenData) (st : Store),
        (logoutEndpoint (some msg) now user st).1
          = .error ⟨500, "Internal server error"⟩) := by
  refine ⟨?_, ?_, ?_, ?_⟩
  · intro c s t genAt bid req user st resp st' hok
    cases hrp : runPipeline c s t req with
    | error e => simp [generate_blog, hrp] at hok
    | ok r =>
      constructor
      · simp [generate_blog, hrp, log_user_action]
      · simp only [generate_blog, hrp, log_user_action, Prod.mk.injEq] at hok
        simp [generate_blog, hrp, log_user_action, ← hok.2]
  · intro s newId now ud st hdb hfresh
    simp [registerEndpoint, register, create_user, log_user_action, appHandle,
      hdb, hfresh]
  · intro s now email password st d hdb hauth
    simp [loginEndpoint, login, log_user_action, appHandle, hdb, hauth]
  · intro now user st
    rfl

/-- C1 witness: the amended theorem applied to the four concrete operations
with an audit sink that raises `"db down"`. -/
theorem audit_write_failure_fails_operation_witness :
    ((generate_blog okCollab stubSettings ⟨none, some "db down"⟩ stubTiming 100
        "64a1f77bcf86cd7994390aa1" stubRequest stubUser emptyStore).1
      = .error ⟨500, "Internal server error: db down"⟩
      ∧ (generate_blog okCollab stubSettings ⟨none, some "db down"⟩ stubTiming 100
        "64a1f77bcf86cd7994390aa1" stubRequest stubUser emptyStore).2.blogs
      = okFinalStore.blogs)
    ∧ (registerEndpoint stubSettings "507f191e810c19729de860ea" 30 none
        (some "db down") freshUserCreate ⟨[stubUserDoc], [], []⟩).1
      = .error ⟨500, "Internal server error"⟩
    ∧ (loginEndpoint stubSettings 40 (some "db down") "u1@example.com" "pw1"
        ⟨[stubUserDoc], [], []⟩).1
      = .error ⟨500, "Internal server error"⟩
    ∧ (logoutEndpoint (some "db down") 450 stubUser emptyStore).1
      = .error ⟨500, "Internal server error"⟩ := by
  have h := audit_write_failure_fails_operation "db down"
  exact ⟨h.1 okCollab stubSettings stubTiming 100 "64a1f77bcf86cd7994390aa1"
          stubRequest stubUser emptyStore okResponse okFinalStore okRun,
         h.2.1 stubSettings "507f191e810c19729de860ea" 30 freshUserCreate
          ⟨[stubUserDoc], [], []⟩ (by decide) (by decide),
         h.2.2.1 stubSettings 40 "u1@example.com" "pw1" ⟨[stubUserDoc], [], []⟩
          [("id", .str "507f1f77bcf86cd799439011"),
           ("email", .str "u1@example.com"),
           ("name", .optStr (some "User One")), ("created_at", .nat 10)]
          (by decide) (by decide),
         h.2.2.2 450 stubUser emptyStore⟩

/-- C2 counterexample: in the concrete baseline run the pipeline takes 1
second up to the second `time.time()` reading, then persistence takes 5 more
seconds and the audit write 3 more; the returned `processing_time` is `1.00`
— the rounded difference of the two readings, measured *before* persistence
— and not `9.00`, the value the claim's "includes the artifact-persistence
time and the audit-write time" would give. -/
theorem processing_time_excludes_persistence_cx :
    (generate_blog okCollab stubSettings ⟨none, none⟩ stubTiming 100
       "64a1f77bcf86cd7994390aa1" stubRequest stubUser emptyStore).1
      = .ok okResponse
    ∧ okResponse.processing_time
        = pyRound2 (stubTiming.pre_response - stubTiming.start_time)
    ∧ okResponse.processing_time
        ≠ pyRound2 (stubTiming.pre_response - stubTiming.start_time
            + stubTiming.persist_duration + stubTiming.audit_duration) := by
  refine ⟨by rw [okRun], rfl, ?_⟩
  show pyRound2 (1 - 0) ≠ pyRound2 ((1 : ℚ) - 0 + 5 + 3)
  rw [show ((1 : ℚ) - 0 + 5 + 3) = ((9 : ℤ) : ℚ) by norm_num,
    show ((1 : ℚ) - 0) = ((1 : ℤ) : ℚ) by norm_num,
    pyRound2_intCast, pyRound2_intCast]
  norm_num

/-- C2 amended: for every successful pipeline run, the returned
`processing_time` is the elapsed wall-clock time from pipeline start to just
before response construction — i.e. the difference of the two `time.time()`
readings — rounded to two decimal places; the artifact-persistence and
audit-write durations are *excluded* (both awaits run after the second
reading), so the result is invariant under changing them. -/
theorem processing_time_is_pre_persistence_elapsed
    (c : Collaborators) (s : Settings) (fail : GenerateFailures) (t : Timing)
    (genAt : Nat) (bid : String) (req : BlogGenerationRequest) (user : TokenData)
    (st : Store) (resp : BlogGenerationResponse) (st' : Store)
    (hok : generate_blog c s fail t genAt bid req user st = (.ok resp, st')) :
    resp.processing_time = pyRound2 (t.pre_response - t.start_time)
    ∧ ∀ pD aD : ℚ, (generate_blog c s fail ⟨t.start_time, t.pre_response, pD, aD⟩
        genAt bid req user st).1 = .ok resp := by
  cases hrp : runPipeline c s t req with
  | error e => simp [generate_blog, hrp] at hok
  | ok r =>
    obtain ⟨fb, fh⟩ := fail
    cases fb with
    | some m => simp [generate_blog, hrp] at hok
    | none =>
      cases fh with
      | some m => simp [generate_blog, hrp, log_user_action] at hok
      | none =>
        simp only [generate_blog, hrp, log_user_action, Prod.mk.injEq,
          Except.ok.injEq] at hok
        constructor
        · rw [← hok.1]
          exact runPipeline_ok_processing_time c s t req r hrp
        · intro pD aD
          simp [generate_blog, runPipeline_timing, hrp, log_user_action, hok.1]

/-- C2 witness: the amended theorem applied to the baseline run; its
`processing_time` is the rounded 1-second pipeline duration, whatever the
persistence and audit durations are (here 7 and 11). -/
theorem processing_time_is_pre_persistence_elapsed_witness :
    okResponse.processing_time
      = pyRound2 (stubTiming.pre_response - stubTiming.start_time)
    ∧ (generate_blog okCollab stubSettings ⟨none, none⟩
        ⟨stubTiming.start_time, stubTiming.pre_response, 7, 11⟩ 100
        "64a1f77bcf86cd7994390aa1" stubRequest stubUser emptyStore).1
      = .ok okResponse := by
  have h := processing_time_is_pre_persistence_elapsed okCollab stubSettings
    ⟨none, none⟩ stubTiming 100 "64a1f77bcf86cd7994390aa1" stubRequest stubUser
    emptyStore okResponse okFinalStore okRun
  exact ⟨h.1, h.2 7 11⟩

/-- C3 counterexample: a duplicate email caught by the pre-check yields
`400 "Email already registered"` — not a 409 Conflict — and a duplicate-key
failure at insert time (the pre-check raced a concurrent registration) is
not handled at all: it surfaces as the *generic* `500 "Internal server
error"`, a different outcome than the duplicate case, contradicting the
claim that both map to the Conflict outcome. -/
theorem register_race_not_conflict_cx :
    (registerEndpoint stubSettings "507f191e810c19729de860ea" 30 none none
        dupUserCreate ⟨[stubUserDoc], [], []⟩).1
      = .error ⟨400, "Email already registered"⟩
    ∧ (registerEndpoint stubSettings "507f191e810c19729de860ea" 30
        (some "E11000 duplicate key error") none freshUserCreate
        ⟨[stubUserDoc], [], []⟩).1
      = .error ⟨500, "Internal server error"⟩
    ∧ ((⟨500, "Internal server error"⟩ : HErr) ≠ ⟨400, "Email already registered"⟩
       ∧ (400 : Nat) ≠ 409) :=
  ⟨rfl, rfl, by decide⟩

/-- C3 amended: `register` fails with `400 "Email already registered"` when
the email exists at pre-check time; but a duplicate-key failure at insert
time is not mapped to that duplicate outcome — it propagates as an unhandled
exception and surfaces as the generic `500 "Internal server error"`. -/
theorem register_duplicate_handling
    (s : Settings) (newId : String) (now : Nat) (ud : UserCreate) (st : Store)
    (usersInsertFail histFail : Option String) (m : String) (u₀ : UserDoc)
    (hdb : ¬ s.mongodb_uri = "") :
    (st.users.find? (fun u => u.email == ud.email) = some u₀ →
      registerEndpoint s newId now usersInsertFail histFail ud st
        = (.error ⟨400, "Email already registered"⟩, st))
    ∧ (st.users.find? (fun u => u.email == ud.email) = none →
      registerEndpoint s newId now (some m) histFail ud st
        = (.error ⟨500, "Internal server error"⟩, st)) := by
  constructor <;> intro h <;>
    simp [registerEndpoint, register, create_user, appHandle, hdb, h]

/-- C3 witness: the amended theorem at the two concrete registrations of the
counterexample. -/
theorem register_duplicate_handling_witness :
    (registerEndpoint stubSettings "507f191e810c19729de860ea" 30 none none
        dupUserCreate ⟨[stubUserDoc], [], []⟩
      = (.error ⟨400, "Email already registered"⟩, ⟨[stubUserDoc], [], []⟩))
    ∧ (registerEndpoint stubSettings "507f191e810c19729de860ea" 30
        (some "E11000 duplicate key error") none freshUserCreate
        ⟨[stubUserDoc], [], []⟩
      = (.error ⟨500, "Internal server error"⟩, ⟨[stubUserDoc], [], []⟩)) :=
  ⟨(register_duplicate_handling stubSettings "507f191e810c19729de860ea" 30
      dupUserCreate ⟨[stubUserDoc], [], []⟩ none none "E11000 duplicate key error"
      stubUserDoc (by decide)).1 (by decide),
   (register_duplicate_handling stubSettings "507f191e810c19729de860ea" 30
      freshUserCreate ⟨[stubUserDoc], [], []⟩ none none "E11000 duplicate key error"
      stubUserDoc (by decide)).2 (by decide)⟩

/-- When both image calls of a collaborator fail — `get_featured_image`
raises or finds nothing, `fetch_images` raises or returns no images — the
degradable image stage yields no featured image and no additional images. -/
theorem fetchImagesStage_all_fail (c : Collaborators) (hasKey : Bool)
    (primary : List String)
    (hfi : (∃ m, c.get_featured_image primary = .error m)
      ∨ c.get_featured_image primary = .ok none)
    (hai : (∃ m, c.fetch_images primary 3 = .error m)
      ∨ c.fetch_images primary 3 = .ok []) :
    fetchImagesStage c hasKey primary = (none, []) := by
  cases hasKey with
  | false => rfl
  | true =>
    unfold fetchImagesStage
    rcases hfi with ⟨m, hm⟩ | hm <;> rw [hm] <;> simp
    rcases hai with ⟨m', hm'⟩ | hm' <;> rw [hm']

/-- Replacing only the two image calls of a collaborator set with failing
ones maps every pipeline outcome to the same outcome with the two image
fields emptied: errors are unchanged, and a successful response keeps every
other field. -/
theorem runPipeline_image_failure (c : Collaborators) (s : Settings)
    (t : Timing) (req : BlogGenerationRequest)
    (gfi : List String → Except String (Option ImageData))
    (gai : List String → Nat → Except String (List ImageData))
    (hfi : ∀ k, (∃ m, gfi k = .error m) ∨ gfi k = .ok none)
    (hai : ∀ k n, (∃ m, gai k n = .error m) ∨ gai k n = .ok []) :
    runPipeline { c with get_featured_image := gfi, fetch_images := gai } s t req
      = (runPipeline c s t req).map stripImages := by
  have himg : ∀ hasKey primary,
      fetchImagesStage { c with get_featured_image := gfi, fetch_images := gai }
        hasKey primary = (none, []) := by
    intro hasKey primary
    exact fetchImagesStage_all_fail _ hasKey primary (hfi primary) (hai primary 3)
  simp only [runPipeline, himg]
  split
  · rfl
  · split
    · rfl
    · split
      · rfl
      · split <;> rfl

/-- C8: if the pipeline run with collaborators `c` fully succeeds, then the
run identical except that the image-fetch collaborator fails (each image
call raises or returns no result) still succeeds (HTTP 200) and returns the
very same response with `featured_image = none` and
`additional_images = []` — every other field as in the fully successful
run. -/
theorem pipeline_degrades_on_image_failure
    (c : Collaborators) (s : Settings) (t : Timing) (genAt : Nat) (bid : String)
    (req : BlogGenerationRequest) (user : TokenData) (st : Store)
    (resp : BlogGenerationResponse) (st' : Store)
    (gfi : List String → Except String (Option ImageData))
    (gai : List String → Nat → Except String (List ImageData))
    (hbase : generate_blog c s ⟨none, none⟩ t genAt bid req user st = (.ok resp, st'))
    (hfi : ∀ k, (∃ m, gfi k = .error m) ∨ gfi k = .ok none)
    (hai : ∀ k n, (∃ m, gai k n = .error m) ∨ gai k n = .ok []) :
    (generate_blog { c with get_featured_image := gfi, fetch_images := gai } s
        ⟨none, none⟩ t genAt bid req user st).1
      = .ok (stripImages resp) := by
  cases hrp : runPipeline c s t req with
  | error e => simp [generate_blog, hrp] at hbase
  | ok r =>
    have hrp' := runPipeline_image_failure c s t req gfi gai hfi hai
    rw [hrp] at hrp'
    simp only [generate_blog, hrp, log_user_action, Prod.mk.injEq,
      Except.ok.injEq] at hbase
    simp [generate_blog, hrp', log_user_action, hbase.1, Except.map]

/-- C8 witness: the baseline run degraded by an image collaborator whose
calls raise `"unsplash down"`: same 200 response with the image fields
emptied. -/
theorem pipeline_degrades_on_image_failure_witness :
    (generate_blog
        { okCollab with get_featured_image := fun _ => .error "unsplash down",
                        fetch_images := fun _ _ => .error "unsplash down" }
        stubSettings ⟨none, none⟩ stubTiming 100 "64a1f77bcf86cd7994390aa1"
        stubRequest stubUser emptyStore).1
      = .ok (stripImages okResponse) :=
  pipeline_degrades_on_image_failure okCollab stubSettings stubTiming 100
    "64a1f77bcf86cd7994390aa1" stubRequest stubUser emptyStore okResponse
    okFinalStore (fun _ => .error "unsplash down") (fun _ _ => .error "unsplash down")
    okRun (fun _ => .inl ⟨"unsplash down", rfl⟩) (fun _ _ => .inl ⟨"unsplash down", rfl⟩)

end BlogAI
